import Mathlib

/-
Verification of `src/request_handlers/cloudflare/env.rs`: the `Env` /
`EnvAssets` capability objects and the `EnvAssets::fetch` bridge that turns a
script-level fetch request into a native HTTP request, dispatches it to the
static asset handler, and settles a script-visible promise with the result.

The embedding is shallow: Rust `Result` becomes `Except`, the `http` crate's
deferred-error request builder becomes `Builder` with an `err` field, and the
asynchronous continuation passed to `future_to_promise` becomes the pure
function `fetchFuture`, which also records an event trace so that ordering
properties of the phases can be stated.  External collaborators (the `http`
crate's validators, `url::Url::parse`, `serve_static_file`, response
conversion) are parameters collected in `Host`.
-/

namespace WinterJS

/-- Byte sequences (`Vec<u8>` / `hyper::Body` contents). -/
abbrev Bytes := List Nat

/-- Error kinds of `ion` errors.  `TypeError` stands for the source's
`ErrorKind::Type` (`Type` is a Lean keyword), `Normal` for `ErrorKind::Normal`. -/
inductive ErrorKind
  | Normal
  | TypeError
  deriving DecidableEq, Repr

/-- An `ion::Error` value: a message and a kind. -/
structure IonError where
  message : String
  kind : ErrorKind
  deriving DecidableEq, Repr

/-- The script-visible state of a `runtime::globals::fetch::Request` that
`EnvAssets::fetch` reads: method, target URL, ordered header pairs, whether
the body has already been taken, and the result that draining the detached
body handle (`into_bytes`) will produce — an error, no body (`None`), or the
body's bytes. -/
structure FetchRequestData where
  method : String
  url : String
  headers : List (String × String)
  bodyTaken : Bool
  drain : Except String (Option Bytes)

/-- Modelled from the spec: `FetchRequest::take_body` is defined in the
`runtime` crate, which is not among the sources; the spec states the body may
be consumed (taken) at most once, and that a second attempt must fail rather
than silently yield empty data.  On success it detaches the body handle,
here represented by the drain result the handle will produce. -/
def FetchRequestData.take_body (r : FetchRequestData) :
    Except IonError (Except String (Option Bytes)) :=
  if r.bodyTaken then .error ⟨"Body has already been used", .Normal⟩
  else .ok r.drain

/-- Validity predicates of the `http` crate's request builder: whether a
string parses as an `http::Uri`, as an `http::Method`, and whether a header
name/value pair is accepted by `Builder::header`. -/
structure Validators where
  validUri : String → Bool
  validMethod : String → Bool
  validHeaderName : String → Bool
  validHeaderValue : String → Bool

/-- The `http::request::Builder`: accumulated method, URI and ordered
headers, plus the first recorded error.  The real builder holds a
`Result<Parts>`; once an error is recorded every later operation is a no-op
and the error only surfaces when `body` is called. -/
structure Builder where
  method : String
  uri : String
  headers : List (String × String)
  err : Option String
  deriving DecidableEq, Repr

/-- `http::Request::builder()`: defaults are method GET and URI "/". -/
def Builder.init : Builder := ⟨"GET", "/", [], none⟩

/-- `Builder::uri`: records the URI, or the first error if it is invalid. -/
def Builder.setUri (b : Builder) (v : Validators) (u : String) : Builder :=
  if b.err.isSome then b
  else if v.validUri u then { b with uri := u }
  else { b with err := some "invalid URI" }

/-- `Builder::method`: records the method, or the first error. -/
def Builder.setMethod (b : Builder) (v : Validators) (m : String) : Builder :=
  if b.err.isSome then b
  else if v.validMethod m then { b with method := m }
  else { b with err := some "invalid method" }

/-- `Builder::header`: appends one name/value pair, preserving insertion
order, or records the first error if the pair is invalid. -/
def Builder.setHeader (b : Builder) (v : Validators) (name value : String) :
    Builder :=
  if b.err.isSome then b
  else if v.validHeaderName name && v.validHeaderValue value then
    { b with headers := b.headers ++ [(name, value)] }
  else { b with err := some "invalid header" }

/-- The native request handed to the static asset dispatcher
(`http::Request` split into parts plus the materialized body bytes). -/
structure NativeRequest where
  method : String
  uri : String
  headers : List (String × String)
  body : Bytes
  deriving DecidableEq, Repr

/-- `Builder::body`: surfaces the accumulated error if any, otherwise
finishes the native request with the given body. -/
def Builder.build (b : Builder) (body : Bytes) : Except String NativeRequest :=
  match b.err with
  | some e => .error e
  | none => .ok ⟨b.method, b.uri, b.headers, body⟩

/-- A native HTTP response produced by the static asset dispatcher. -/
structure NativeResponse where
  status : Nat
  headers : List (String × String)
  body : Bytes
  deriving DecidableEq, Repr

/-- The script-visible `Response` value built by
`FetchResponse::from_hyper_response`: the native response data tagged with
the absolute URL it was fetched from. -/
structure FetchResponseData where
  status : Nat
  headers : List (String × String)
  body : Bytes
  url : String
  deriving DecidableEq, Repr

/-- The external collaborators `EnvAssets::fetch` relies on: the `http`
builder's validators, `url::Url::parse` restricted to absolute URLs
(returning the parsed URL's string form), the static asset dispatcher
`serve_static_file`, the response conversion `from_hyper_response`, and
whether `future_to_promise` can produce a promise at all. -/
structure Host where
  v : Validators
  parseAbsUrl : String → Except String String
  serve_static_file : NativeRequest → Except String NativeResponse
  from_hyper_response : NativeResponse → String → Except IonError FetchResponseData
  futureToPromiseOk : Bool

/-- Observable events of one `fetch` call, in the order they occur. -/
inductive Ev
  | promiseReturned
  | extract
  | bodyDetach
  | bodyDrain
  | build
  | urlParse
  | dispatch
  | responseConvert
  | settle (rejected : Bool)
  deriving DecidableEq, Repr

/-- Outcome of the asynchronous continuation: a response value to resolve
with, an error to reject with, or a Rust panic (the `.unwrap()` on
`get_mut_private`). -/
inductive ContOutcome
  | ok (resp : FetchResponseData)
  | err (e : IonError)
  | panic
  deriving DecidableEq, Repr

/-- A run of the continuation: its outcome, the events it performed, and the
native request it handed to the dispatcher, if dispatch was reached. -/
structure ContRun where
  outcome : ContOutcome
  events : List Ev
  dispatched : Option NativeRequest
  deriving DecidableEq, Repr

/-- The builder state after the synchronous accumulation steps of the
continuation: `http::Request::builder().uri(request.get_url()).method(request.method())`
followed by one `header` call per header pair in iteration order. -/
def buildHeaders (h : Host) (r : FetchRequestData) : Builder :=
  r.headers.foldl (fun b p => b.setHeader h.v p.1 p.2)
    ((Builder.init.setUri h.v r.url).setMethod h.v r.method)

/-- The async block passed to `future_to_promise` in `EnvAssets::fetch`
(env.rs lines 67–101).  `handleValid` states that the `TracedHeap` re-rooted
against the context yields a live request object; `get_mut_private(..).unwrap()`
panics when it does not.  Then: method/URL/header extraction into the
builder, body detach (`take_body`), body drain (`into_bytes`, absent body
becoming `hyper::Body::empty()`), finishing the builder with the body,
re-parsing the URI as an absolute URL, dispatching to `serve_static_file`
(a failure wrapped with the fixed message prefix), and converting the native
response via `from_hyper_response`. -/
def fetchFuture (h : Host) (handleValid : Bool) (r : FetchRequestData) :
    ContRun :=
  if handleValid then
    let b := buildHeaders h r
    match r.take_body with
    | .error e => ⟨.err e, [.extract, .bodyDetach], none⟩
    | .ok drain =>
      match drain with
      | .error e =>
          ⟨.err ⟨e, .Normal⟩, [.extract, .bodyDetach, .bodyDrain], none⟩
      | .ok bodyBytes =>
        let body : Bytes :=
          match bodyBytes with
          | some bytes => bytes
          | none => []
        match b.build body with
        | .error e =>
            ⟨.err ⟨e, .Normal⟩,
              [.extract, .bodyDetach, .bodyDrain, .build], none⟩
        | .ok req =>
          match h.parseAbsUrl req.uri with
          | .error e =>
              ⟨.err ⟨e, .Normal⟩,
                [.extract, .bodyDetach, .bodyDrain, .build, .urlParse], none⟩
          | .ok url =>
            match h.serve_static_file req with
            | .error e =>
                ⟨.err ⟨"Failed to fetch static asset due to " ++ e, .Normal⟩,
                  [.extract, .bodyDetach, .bodyDrain, .build, .urlParse,
                    .dispatch], some req⟩
            | .ok resp =>
              match h.from_hyper_response resp url with
              | .error e =>
                  ⟨.err e,
                    [.extract, .bodyDetach, .bodyDrain, .build, .urlParse,
                      .dispatch, .responseConvert], some req⟩
              | .ok scriptResp =>
                  ⟨.ok scriptResp,
                    [.extract, .bodyDetach, .bodyDrain, .build, .urlParse,
                      .dispatch, .responseConvert], some req⟩
  else ⟨.panic, [], none⟩

/-- The final state of the promise returned by `fetch`. -/
inductive PromiseState
  | pending
  | resolved (resp : FetchResponseData)
  | rejected (e : IonError)
  deriving DecidableEq, Repr

/-- The observable result of one `EnvAssets::fetch` call: whether a promise
was returned, its eventual state, whether the process panicked, the event
trace of the whole call, and the request handed to the dispatcher, if any. -/
structure FetchResult where
  returned : Bool
  finalState : PromiseState
  panicked : Bool
  trace : List Ev
  dispatched : Option NativeRequest
  deriving DecidableEq, Repr

namespace EnvAssets

/-- `EnvAssets::fetch` (env.rs lines 63–103).  The `TracedHeap` handle is
created from the live `&FetchRequest`, so the continuation re-roots a valid
handle.  `future_to_promise` is modelled from the spec (it is defined in the
`runtime` crate, not among the sources): it returns the promise to script
synchronously before the native computation begins, or nothing when a
promise cannot be created at all, and the continuation's `Ok`/`Err` outcome
resolves/rejects that promise. -/
def fetch (h : Host) (r : FetchRequestData) : FetchResult :=
  if h.futureToPromiseOk then
    let run := fetchFuture h true r
    match run.outcome with
    | .ok resp =>
        ⟨true, .resolved resp, false,
          .promiseReturned :: run.events ++ [.settle false], run.dispatched⟩
    | .err e =>
        ⟨true, .rejected e, false,
          .promiseReturned :: run.events ++ [.settle true], run.dispatched⟩
    | .panic =>
        ⟨true, .pending, true, .promiseReturned :: run.events, run.dispatched⟩
  else ⟨false, .pending, false, [], none⟩

end EnvAssets

/-- The script-visible `Env` object: its single attribute is the owned
`ASSETS` capability object (a GC heap pointer in the source, abstracted). -/
structure EnvData where
  assets : Unit
  deriving DecidableEq, Repr

/-- The script-visible `EnvAssets` object (only a reflector in the source). -/
inductive EnvAssetsData
  | mk
  deriving DecidableEq, Repr

namespace Env

/-- `Env::constructor` (env.rs lines 39–42): always fails. -/
def constructor : Except IonError EnvData :=
  .error ⟨"Cannot construct this type", .TypeError⟩

end Env

namespace EnvAssets

/-- `EnvAssets::constructor` (env.rs lines 58–61): always fails. -/
def constructor : Except IonError EnvAssetsData :=
  .error ⟨"Cannot construct this type", .TypeError⟩

end EnvAssets

/-! Concrete hosts and requests used by witnesses and counterexamples. -/

/-- Validators that accept everything (all strings valid). -/
def acceptAll : Validators := ⟨fun _ => true, fun _ => true, fun _ => true, fun _ => true⟩

/-- A host on which every phase succeeds: URLs parse to themselves, the
dispatcher returns a fixed 200 response, conversion succeeds. -/
def hostOk : Host where
  v := acceptAll
  parseAbsUrl := fun s => .ok s
  serve_static_file := fun _ => .ok ⟨200, [("content-type", "text/plain")], [104, 105]⟩
  from_hyper_response := fun resp u => .ok ⟨resp.status, resp.headers, resp.body, u⟩
  futureToPromiseOk := true

/-- A simple well-formed request with one header and a two-byte body. -/
def reqSimple : FetchRequestData :=
  ⟨"GET", "https://example.com/a.txt", [("accept", "text/plain")], false,
    .ok (some [104, 105])⟩

/-- A host whose dispatcher always fails with "disk error". -/
def hostDiskError : Host :=
  { hostOk with serve_static_file := fun _ => .error "disk error" }

/-- A host on which URL re-parsing always fails. -/
def hostBadUrl : Host :=
  { hostOk with parseAbsUrl := fun _ => .error "relative URL without a base" }

/-- A host whose builder rejects the header name "bad". -/
def hostRejectHeader : Host :=
  { hostOk with v := { acceptAll with validHeaderName := fun n => n != "bad" } }

/-- A request carrying the header name the builder of `hostRejectHeader`
rejects, with an absent body. -/
def reqBadHeader : FetchRequestData :=
  ⟨"GET", "https://example.com/x", [("bad", "v")], false, .ok none⟩

/-- A request whose body handle has already been taken once. -/
def reqTaken : FetchRequestData :=
  ⟨"POST", "https://example.com/y", [], true, .ok (some [1])⟩

/-- How `future_to_promise` settles the promise from the continuation's
outcome: `Ok` resolves, `Err` rejects, and a panic leaves it pending
forever (the process crashed). -/
def contSettle : ContOutcome → PromiseState
  | .ok resp => .resolved resp
  | .err e => .rejected e
  | .panic => .pending

/-- The events the continuation can perform, in full, in source order. -/
def contEvents : List Ev :=
  [.extract, .bodyDetach, .bodyDrain, .build, .urlParse, .dispatch,
    .responseConvert]

/-- The six phases named by the spec's ordering guarantee, settlement apart. -/
def corePhases : List Ev :=
  [.extract, .bodyDetach, .bodyDrain, .dispatch, .responseConvert]

/-- Whether an event is one of the spec's six phases. -/
def isPhase : Ev → Bool
  | .extract | .bodyDetach | .bodyDrain | .dispatch | .responseConvert => true
  | .settle _ => true
  | _ => false

/-- The subtrace of spec phases of a trace. -/
def phaseTrace (t : List Ev) : List Ev := t.filter isPhase

/-! Helper lemmas about the builder and the two fetch functions. -/

/-- Folding valid header pairs over an error-free builder appends them all
in order and records no error. -/
theorem foldl_setHeader_of_valid (v : Validators) (hs : List (String × String))
    (b : Builder) (hb : b.err = none)
    (hall : ∀ p ∈ hs, v.validHeaderName p.1 = true ∧ v.validHeaderValue p.2 = true) :
    hs.foldl (fun acc p => acc.setHeader v p.1 p.2) b =
      { b with headers := b.headers ++ hs } := by
  induction hs generalizing b with
  | nil => simp
  | cons p t ih =>
    have hp := hall p (List.mem_cons_self p t)
    have hset : b.setHeader v p.1 p.2 = { b with headers := b.headers ++ [p] } := by
      simp [Builder.setHeader, hb, hp.1, hp.2]
    have hrest : ∀ q ∈ t, v.validHeaderName q.1 = true ∧ v.validHeaderValue q.2 = true :=
      fun q hq => hall q (List.mem_cons_of_mem p hq)
    rw [List.foldl_cons, hset,
      ih { b with headers := b.headers ++ [p] } hb hrest]
    simp

/-- When the URL, method and every header pair are valid, the builder ends
up holding exactly the request's method, URL and headers, with no error. -/
theorem buildHeaders_of_valid (h : Host) (r : FetchRequestData)
    (hu : h.v.validUri r.url = true) (hm : h.v.validMethod r.method = true)
    (hh : ∀ p ∈ r.headers,
      h.v.validHeaderName p.1 = true ∧ h.v.validHeaderValue p.2 = true) :
    buildHeaders h r = ⟨r.method, r.url, r.headers, none⟩ := by
  unfold buildHeaders
  have h1 : Builder.init.setUri h.v r.url = ⟨"GET", r.url, [], none⟩ := by
    simp [Builder.setUri, Builder.init, hu]
  have h2 : (Builder.setMethod ⟨"GET", r.url, [], none⟩ h.v r.method) =
      ⟨r.method, r.url, [], none⟩ := by
    simp [Builder.setMethod, hm]
  rw [h1, h2, foldl_setHeader_of_valid h.v r.headers _ rfl hh]
  simp

/-- With a valid (re-rooted) handle, the continuation never reaches the
panic of `get_mut_private(..).unwrap()`: every branch ends in `ok` or `err`. -/
theorem fetchFuture_ne_panic (h : Host) (r : FetchRequestData) :
    (fetchFuture h true r).outcome ≠ ContOutcome.panic := by
  unfold fetchFuture
  rw [if_pos rfl]
  dsimp only
  repeat' split
  all_goals simp

/-- `fetch` with a working `future_to_promise` is determined by the
continuation's run: the promise is returned, the trace brackets the
continuation's events between promise return and settlement, and the
outcome settles the promise. -/
theorem fetch_run (h : Host) (r : FetchRequestData)
    (hfp : h.futureToPromiseOk = true) :
    EnvAssets.fetch h r =
      match (fetchFuture h true r).outcome with
      | .ok resp =>
          ⟨true, .resolved resp, false,
            .promiseReturned :: (fetchFuture h true r).events ++ [.settle false],
            (fetchFuture h true r).dispatched⟩
      | .err e =>
          ⟨true, .rejected e, false,
            .promiseReturned :: (fetchFuture h true r).events ++ [.settle true],
            (fetchFuture h true r).dispatched⟩
      | .panic =>
          ⟨true, .pending, true,
            .promiseReturned :: (fetchFuture h true r).events,
            (fetchFuture h true r).dispatched⟩ := by
  unfold EnvAssets.fetch
  rw [if_pos hfp]

/-- The trace of a `fetch` call is the continuation's events bracketed by
promise return and settlement. -/
theorem fetch_trace_form (h : Host) (r : FetchRequestData)
    (hfp : h.futureToPromiseOk = true) :
    ∃ b, (EnvAssets.fetch h r).trace =
      .promiseReturned :: (fetchFuture h true r).events ++ [.settle b] := by
  rw [fetch_run h r hfp]
  rcases ho : (fetchFuture h true r).outcome with resp | e | _
  · exact ⟨false, by simp [ho]⟩
  · exact ⟨true, by simp [ho]⟩
  · exact absurd ho (fetchFuture_ne_panic h r)

/-- The continuation's event list is always a prefix of the full event list
of length between 2 and 7: later steps are skipped exactly when an earlier
step failed. -/
theorem fetchFuture_events_prefix (h : Host) (r : FetchRequestData) :
    (fetchFuture h true r).events = contEvents.take 2 ∨
    (fetchFuture h true r).events = contEvents.take 3 ∨
    (fetchFuture h true r).events = contEvents.take 4 ∨
    (fetchFuture h true r).events = contEvents.take 5 ∨
    (fetchFuture h true r).events = contEvents.take 6 ∨
    (fetchFuture h true r).events = contEvents.take 7 := by
  unfold fetchFuture
  rw [if_pos rfl]
  dsimp only
  repeat' split
  all_goals simp [contEvents]

/-- Evaluation of the continuation once the synchronous accumulation is
valid, the body has not been taken, and draining succeeds: everything up to
the URL re-parse is determined. -/
theorem fetchFuture_after_drain (h : Host) (r : FetchRequestData)
    (hu : h.v.validUri r.url = true) (hm : h.v.validMethod r.method = true)
    (hh : ∀ p ∈ r.headers,
      h.v.validHeaderName p.1 = true ∧ h.v.validHeaderValue p.2 = true)
    (hnt : r.bodyTaken = false)
    (ob : Option Bytes) (hdrain : r.drain = .ok ob) :
    fetchFuture h true r =
      match h.parseAbsUrl r.url with
      | .error e =>
          ⟨.err ⟨e, .Normal⟩,
            [.extract, .bodyDetach, .bodyDrain, .build, .urlParse], none⟩
      | .ok url =>
        match h.serve_static_file ⟨r.method, r.url, r.headers, ob.getD []⟩ with
        | .error e =>
            ⟨.err ⟨"Failed to fetch static asset due to " ++ e, .Normal⟩,
              [.extract, .bodyDetach, .bodyDrain, .build, .urlParse, .dispatch],
              some ⟨r.method, r.url, r.headers, ob.getD []⟩⟩
        | .ok resp =>
          match h.from_hyper_response resp url with
          | .error e =>
              ⟨.err e,
                [.extract, .bodyDetach, .bodyDrain, .build, .urlParse,
                  .dispatch, .responseConvert],
                some ⟨r.method, r.url, r.headers, ob.getD []⟩⟩
          | .ok scriptResp =>
              ⟨.ok scriptResp,
                [.extract, .bodyDetach, .bodyDrain, .build, .urlParse,
                  .dispatch, .responseConvert],
                some ⟨r.method, r.url, r.headers, ob.getD []⟩⟩ := by
  unfold fetchFuture FetchRequestData.take_body
  rw [if_pos rfl]
  rw [buildHeaders_of_valid h r hu hm hh]
  cases ob with
  | none => simp [hnt, hdrain, Builder.build]
  | some bytes => simp [hnt, hdrain, Builder.build]

/-! The claims. -/

/-- C1: for every well-formed script request — method, URL and every header
pair accepted by the builder, body not yet taken, drain yielding `ob` —
whose URL re-parses as absolute, the native request handed to
`serve_static_file` has the identical method, the same absolute URL, the
headers equal to the request's in the same order, and the drained bytes as
body; when the body handle denotes no body (`ob = none`) the native body is
the empty sequence, not an error. -/
theorem C1_native_request_faithful (h : Host) (r : FetchRequestData)
    (hu : h.v.validUri r.url = true) (hm : h.v.validMethod r.method = true)
    (hh : ∀ p ∈ r.headers,
      h.v.validHeaderName p.1 = true ∧ h.v.validHeaderValue p.2 = true)
    (hnt : r.bodyTaken = false)
    (ob : Option Bytes) (hdrain : r.drain = .ok ob)
    (u : String) (hparse : h.parseAbsUrl r.url = .ok u)
    (hfp : h.futureToPromiseOk = true) :
    (EnvAssets.fetch h r).dispatched =
      some ⟨r.method, r.url, r.headers, ob.getD []⟩ := by
  rw [fetch_run h r hfp, fetchFuture_after_drain h r hu hm hh hnt ob hdrain,
    hparse]
  rcases hserve : h.serve_static_file ⟨r.method, r.url, r.headers, ob.getD []⟩
      with e | resp
  · simp [hserve]
  · rcases hconv : h.from_hyper_response resp u with e2 | s <;>
      simp [hserve, hconv]

/-- C1 witness: a concrete run on `hostOk` and `reqSimple`. -/
theorem C1_witness :
    (EnvAssets.fetch hostOk reqSimple).dispatched =
      some ⟨"GET", "https://example.com/a.txt", [("accept", "text/plain")],
        [104, 105]⟩ :=
  C1_native_request_faithful hostOk reqSimple rfl rfl
    (fun _ _ => ⟨rfl, rfl⟩) rfl (some [104, 105]) rfl
    "https://example.com/a.txt" rfl rfl

/-- C2: with a working `future_to_promise`, the promise is returned to
script and is the first event — before any work of the continuation — the
process never panics, the promise never stays pending (no silent drop), and
the final state is exactly the settlement of the continuation's outcome, so
every post-return failure surfaces as a rejection of that promise. -/
theorem C2_promise_sync_rejection_only (h : Host) (r : FetchRequestData)
    (hfp : h.futureToPromiseOk = true) :
    (EnvAssets.fetch h r).returned = true ∧
    (EnvAssets.fetch h r).trace.head? = some Ev.promiseReturned ∧
    (EnvAssets.fetch h r).panicked = false ∧
    (EnvAssets.fetch h r).finalState ≠ PromiseState.pending ∧
    (EnvAssets.fetch h r).finalState =
      contSettle (fetchFuture h true r).outcome := by
  have hnp := fetchFuture_ne_panic h r
  rw [fetch_run h r hfp]
  rcases ho : (fetchFuture h true r).outcome with resp | e | _
  · simp [contSettle, ho]
  · simp [contSettle, ho]
  · exact absurd ho hnp

/-- C2 witness: a concrete run on `hostOk` and `reqSimple`. -/
theorem C2_witness :
    (EnvAssets.fetch hostOk reqSimple).returned = true ∧
    (EnvAssets.fetch hostOk reqSimple).trace.head? = some Ev.promiseReturned ∧
    (EnvAssets.fetch hostOk reqSimple).panicked = false ∧
    (EnvAssets.fetch hostOk reqSimple).finalState ≠ PromiseState.pending ∧
    (EnvAssets.fetch hostOk reqSimple).finalState =
      contSettle (fetchFuture hostOk true reqSimple).outcome :=
  C2_promise_sync_rejection_only hostOk reqSimple rfl

/-- C3: when every phase up to dispatch succeeds and the dispatcher fails
with message `e`, the promise rejects with exactly
"Failed to fetch static asset due to " followed by `e`. -/
theorem C3_dispatch_failure_message (h : Host) (r : FetchRequestData)
    (hu : h.v.validUri r.url = true) (hm : h.v.validMethod r.method = true)
    (hh : ∀ p ∈ r.headers,
      h.v.validHeaderName p.1 = true ∧ h.v.validHeaderValue p.2 = true)
    (hnt : r.bodyTaken = false)
    (ob : Option Bytes) (hdrain : r.drain = .ok ob)
    (u : String) (hparse : h.parseAbsUrl r.url = .ok u)
    (e : String)
    (hserve : h.serve_static_file ⟨r.method, r.url, r.headers, ob.getD []⟩ =
      .error e)
    (hfp : h.futureToPromiseOk = true) :
    (EnvAssets.fetch h r).finalState =
      .rejected ⟨"Failed to fetch static asset due to " ++ e, .Normal⟩ := by
  rw [fetch_run h r hfp, fetchFuture_after_drain h r hu hm hh hnt ob hdrain,
    hparse]
  simp [hserve]

/-- C3 witness: a dispatcher that always fails with "disk error" yields the
rejection message "Failed to fetch static asset due to disk error". -/
theorem C3_witness :
    (EnvAssets.fetch hostDiskError reqSimple).finalState =
      .rejected ⟨"Failed to fetch static asset due to disk error",
        .Normal⟩ :=
  C3_dispatch_failure_message hostDiskError reqSimple rfl rfl
    (fun _ _ => ⟨rfl, rfl⟩) rfl (some [104, 105]) rfl
    "https://example.com/a.txt" rfl "disk error" rfl rfl

/-- C4: every attempt to construct `Env` or `EnvAssets` directly from
script fails with a Type-kind error whose message is "Cannot construct this
type"; since the result is exactly that error, no object of either type is
ever produced. -/
theorem C4_constructors_always_type_error :
    Env.constructor = .error ⟨"Cannot construct this type", .TypeError⟩ ∧
    EnvAssets.constructor = .error ⟨"Cannot construct this type", .TypeError⟩ :=
  ⟨rfl, rfl⟩

/-- C5: when the assembled native request's URI string does not re-parse as
an absolute URL, the promise rejects with exactly the URL-parse error (the
spec's RequestBuildError) and `serve_static_file` is never invoked; the
trace shows the re-parse happening after the full native request is built
and strictly before dispatch, which never occurs. -/
theorem C5_url_reparse_before_dispatch (h : Host) (r : FetchRequestData)
    (hu : h.v.validUri r.url = true) (hm : h.v.validMethod r.method = true)
    (hh : ∀ p ∈ r.headers,
      h.v.validHeaderName p.1 = true ∧ h.v.validHeaderValue p.2 = true)
    (hnt : r.bodyTaken = false)
    (ob : Option Bytes) (hdrain : r.drain = .ok ob)
    (e : String) (hparse : h.parseAbsUrl r.url = .error e)
    (hfp : h.futureToPromiseOk = true) :
    (EnvAssets.fetch h r).finalState = .rejected ⟨e, .Normal⟩ ∧
    (EnvAssets.fetch h r).dispatched = none ∧
    (EnvAssets.fetch h r).trace =
      [.promiseReturned, .extract, .bodyDetach, .bodyDrain, .build,
        .urlParse, .settle true] := by
  rw [fetch_run h r hfp, fetchFuture_after_drain h r hu hm hh hnt ob hdrain,
    hparse]
  exact ⟨rfl, rfl, rfl⟩

/-- C5 witness: a concrete run on `hostBadUrl` and `reqSimple`. -/
theorem C5_witness :
    (EnvAssets.fetch hostBadUrl reqSimple).finalState =
      .rejected ⟨"relative URL without a base", .Normal⟩ ∧
    (EnvAssets.fetch hostBadUrl reqSimple).dispatched = none ∧
    (EnvAssets.fetch hostBadUrl reqSimple).trace =
      [.promiseReturned, .extract, .bodyDetach, .bodyDrain, .build,
        .urlParse, .settle true] :=
  C5_url_reparse_before_dispatch hostBadUrl reqSimple rfl rfl
    (fun _ _ => ⟨rfl, rfl⟩) rfl (some [104, 105]) rfl
    "relative URL without a base" rfl rfl

/-- C6: a request whose body has already been taken once fails
deterministically on the second take attempt instead of silently yielding
empty data, and within `fetch` that failure rejects the returned promise:
the body is never drained and nothing is dispatched. -/
theorem C6_second_take_rejects (h : Host) (r : FetchRequestData)
    (htaken : r.bodyTaken = true) (hfp : h.futureToPromiseOk = true) :
    r.take_body = .error ⟨"Body has already been used", .Normal⟩ ∧
    (EnvAssets.fetch h r).finalState =
      .rejected ⟨"Body has already been used", .Normal⟩ ∧
    (EnvAssets.fetch h r).trace =
      [.promiseReturned, .extract, .bodyDetach, .settle true] ∧
    (EnvAssets.fetch h r).dispatched = none := by
  have htb : r.take_body = .error ⟨"Body has already been used", .Normal⟩ := by
    simp [FetchRequestData.take_body, htaken]
  have hff : fetchFuture h true r =
      ⟨.err ⟨"Body has already been used", .Normal⟩,
        [.extract, .bodyDetach], none⟩ := by
    unfold fetchFuture
    rw [if_pos rfl]
    dsimp only
    rw [htb]
  rw [fetch_run h r hfp, hff]
  exact ⟨htb, rfl, rfl, rfl⟩

/-- C6 witness: a concrete run on `hostOk` and the already-taken request. -/
theorem C6_witness :
    reqTaken.take_body = .error ⟨"Body has already been used", .Normal⟩ ∧
    (EnvAssets.fetch hostOk reqTaken).finalState =
      .rejected ⟨"Body has already been used", .Normal⟩ ∧
    (EnvAssets.fetch hostOk reqTaken).trace =
      [.promiseReturned, .extract, .bodyDetach, .settle true] ∧
    (EnvAssets.fetch hostOk reqTaken).dispatched = none :=
  C6_second_take_rejects hostOk reqTaken rfl rfl

/-- C7: for every single `fetch` call the spec's phases occur as a prefix of
the canonical order — header/method extraction, body detach, body drain,
dispatch, response conversion — followed by exactly one promise settlement:
no phase is reordered, none is executed speculatively, and a phase is
missing only when an earlier phase failed. -/
theorem C7_phases_in_order (h : Host) (r : FetchRequestData)
    (hfp : h.futureToPromiseOk = true) :
    ∃ k b, k ≤ 5 ∧
      phaseTrace (EnvAssets.fetch h r).trace =
        corePhases.take k ++ [Ev.settle b] := by
  obtain ⟨b, htr⟩ := fetch_trace_form h r hfp
  rw [htr]
  rcases fetchFuture_events_prefix h r with he | he | he | he | he | he <;>
    rw [he]
  · exact ⟨2, b, by norm_num,
      by simp [phaseTrace, contEvents, corePhases, isPhase]⟩
  · exact ⟨3, b, by norm_num,
      by simp [phaseTrace, contEvents, corePhases, isPhase]⟩
  · exact ⟨3, b, by norm_num,
      by simp [phaseTrace, contEvents, corePhases, isPhase]⟩
  · exact ⟨3, b, by norm_num,
      by simp [phaseTrace, contEvents, corePhases, isPhase]⟩
  · exact ⟨4, b, by norm_num,
      by simp [phaseTrace, contEvents, corePhases, isPhase]⟩
  · exact ⟨5, b, by norm_num,
      by simp [phaseTrace, contEvents, corePhases, isPhase]⟩

/-- C7 witness: a concrete run on `hostOk` and `reqSimple`. -/
theorem C7_witness :
    ∃ k b, k ≤ 5 ∧
      phaseTrace (EnvAssets.fetch hostOk reqSimple).trace =
        corePhases.take k ++ [Ev.settle b] :=
  C7_phases_in_order hostOk reqSimple rfl

/-- C8 counterexample: on `hostOk` and `reqSimple` the trace begins with the
promise being returned, and the Phase-1 extraction and body detach occur
strictly after it — refuting the claim that Phase 1 executes before the
promise is returned.  The extraction sits inside the `async move` block
handed to `future_to_promise` (env.rs lines 67–79), which runs only after
the promise has been created and returned. -/
theorem C8_counterexample :
    (EnvAssets.fetch hostOk reqSimple).trace =
      [.promiseReturned, .extract, .bodyDetach, .bodyDrain, .build,
        .urlParse, .dispatch, .responseConvert, .settle false] ∧
    (EnvAssets.fetch hostOk reqSimple).trace.indexOf Ev.promiseReturned <
      (EnvAssets.fetch hostOk reqSimple).trace.indexOf Ev.extract := by
  constructor <;> decide

/-- C8 amended: Phase 1 — method/URL read, header copy, body detach — runs
on the script thread as the first steps of the asynchronous continuation,
before the body drain and any other asynchronous native work, but after,
not before, the promise is returned to script. -/
theorem C8_amended_phase1_first_in_continuation (h : Host)
    (r : FetchRequestData) (hfp : h.futureToPromiseOk = true) :
    (EnvAssets.fetch h r).trace.take 3 =
      [Ev.promiseReturned, Ev.extract, Ev.bodyDetach] := by
  obtain ⟨b, htr⟩ := fetch_trace_form h r hfp
  rw [htr]
  rcases fetchFuture_events_prefix h r with he | he | he | he | he | he <;>
    rw [he] <;> simp [contEvents]

/-- C8 amended witness: a concrete run on `hostOk` and `reqSimple`. -/
theorem C8_witness :
    (EnvAssets.fetch hostOk reqSimple).trace.take 3 =
      [Ev.promiseReturned, Ev.extract, Ev.bodyDetach] :=
  C8_amended_phase1_first_in_continuation hostOk reqSimple rfl

/-- C9: the continuation never reaches the panic of
`get_mut_private(..).unwrap()` because the handle it re-roots was created
from the live request and traced, the process never panics for any host
behaviour or request state, and whenever a promise was returned it does not
stay pending: every failure settles it as a rejection. -/
theorem C9_no_panic_no_silent_drop (h : Host) (r : FetchRequestData) :
    (fetchFuture h true r).outcome ≠ ContOutcome.panic ∧
    (EnvAssets.fetch h r).panicked = false ∧
    ((EnvAssets.fetch h r).returned = false ∨
      (EnvAssets.fetch h r).finalState ≠ PromiseState.pending) := by
  have hnp := fetchFuture_ne_panic h r
  refine ⟨hnp, ?_⟩
  by_cases hfp : h.futureToPromiseOk = true
  · rw [fetch_run h r hfp]
    rcases ho : (fetchFuture h true r).outcome with resp | e | _
    · simp
    · simp
    · exact absurd ho hnp
  · have hfp2 : h.futureToPromiseOk = false := by
      simpa using hfp
    unfold EnvAssets.fetch
    rw [hfp2]
    simp

/-- C9 witness: a concrete run on `hostOk` and `reqSimple`. -/
theorem C9_witness :
    (fetchFuture hostOk true reqSimple).outcome ≠ ContOutcome.panic ∧
    (EnvAssets.fetch hostOk reqSimple).panicked = false ∧
    ((EnvAssets.fetch hostOk reqSimple).returned = false ∨
      (EnvAssets.fetch hostOk reqSimple).finalState ≠ PromiseState.pending) :=
  C9_no_panic_no_silent_drop hostOk reqSimple

/-- C10: when the builder accumulated an error during method/URL/header
accumulation, that error surfaces only at the `body` call after the
asynchronous drain: the script request's body is detached and drained even
though native request construction ultimately fails, nothing is dispatched,
and the failure is a rejection of the promise, not a synchronous Phase-1
construction error. -/
theorem C10_builder_error_deferred (h : Host) (r : FetchRequestData)
    (e : String) (hberr : (buildHeaders h r).err = some e)
    (hnt : r.bodyTaken = false)
    (ob : Option Bytes) (hdrain : r.drain = .ok ob)
    (hfp : h.futureToPromiseOk = true) :
    (EnvAssets.fetch h r).finalState = .rejected ⟨e, .Normal⟩ ∧
    (EnvAssets.fetch h r).trace =
      [.promiseReturned, .extract, .bodyDetach, .bodyDrain, .build,
        .settle true] ∧
    (EnvAssets.fetch h r).dispatched = none := by
  have hff : fetchFuture h true r =
      ⟨.err ⟨e, .Normal⟩, [.extract, .bodyDetach, .bodyDrain, .build],
        none⟩ := by
    unfold fetchFuture
    rw [if_pos rfl]
    dsimp only
    cases ob with
    | none =>
        simp [FetchRequestData.take_body, hnt, hdrain, Builder.build, hberr]
    | some bytes =>
        simp [FetchRequestData.take_body, hnt, hdrain, Builder.build, hberr]
  rw [fetch_run h r hfp, hff]
  exact ⟨rfl, rfl, rfl⟩

/-- C10 witness: a concrete run on the header-rejecting host. -/
theorem C10_witness :
    (EnvAssets.fetch hostRejectHeader reqBadHeader).finalState =
      .rejected ⟨"invalid header", .Normal⟩ ∧
    (EnvAssets.fetch hostRejectHeader reqBadHeader).trace =
      [.promiseReturned, .extract, .bodyDetach, .bodyDrain, .build,
        .settle true] ∧
    (EnvAssets.fetch hostRejectHeader reqBadHeader).dispatched = none :=
  C10_builder_error_deferred hostRejectHeader reqBadHeader "invalid header"
    (by decide) rfl none rfl rfl

end WinterJS
